import Mathlib

/-!
# invernadero: webcam viewer

A shallow embedding of `src/vision/Camera.cpp` and `src/main.cpp`.

The program talks to two external subsystems (video capture and windowing).
They are modelled as a `Device` oracle that fixes, for every call, what the
outside world answers, and a `World` that records how many answers have been
consumed and the chronological trace of external calls together with their
outcomes.  Every method of `Camera` is a total function that passes the
`Camera` object and the `World` explicitly.
-/

namespace Invernadero

/-! ## External world -/

/-- Image buffer (`cv::Mat`), reduced to its pixel payload. -/
structure Mat where
  data : List Nat
  deriving DecidableEq, Repr

/-- Model of `cv::Mat::empty()`: the buffer holds no element. -/
def Mat.empty (m : Mat) : Bool := m.data.isEmpty

/-- One call that leaves the program, with the answer it received. -/
inductive Event where
  | capOpen (index : Int) (ok : Bool)
  | capRead (got : Mat)
  | capRelease
  | imshow (winname : String) (mat : Mat)
  | waitKey (delay : Int) (key : Int)
  | cerr (line : String)
  deriving DecidableEq, Repr

/-- Behaviour of the outside world: the outcome of the n-th attempt to open a
device index, the frame delivered by the n-th read, and the value returned by
the n-th key poll. -/
structure Device where
  openOk : Nat → Int → Bool
  frames : Nat → Mat
  keys : Nat → Int

/-- Answers consumed so far and the trace of external calls, oldest first. -/
structure World where
  opens : Nat
  reads : Nat
  polls : Nat
  trace : List Event
  deriving DecidableEq, Repr

/-- World at process start. -/
def World.init : World := ⟨0, 0, 0, []⟩

/-- Capture handle (`cv::VideoCapture`); `isOpened()` is its only observation. -/
structure VideoCapture where
  opened : Bool
  deriving DecidableEq, Repr

/-- Model of `cap.isOpened()`. -/
def capIsOpened (cap : VideoCapture) : Bool := cap.opened

/-- Model of `cap.open(index)`: the handle is open afterwards exactly when the
device accepted the attempt. -/
def capOpen (dev : Device) (_cap : VideoCapture) (index : Int) (w : World) :
    VideoCapture × World :=
  let ok := dev.openOk w.opens index
  (⟨ok⟩, ⟨w.opens + 1, w.reads, w.polls, w.trace ++ [Event.capOpen index ok]⟩)

/-- Model of `cap >> frame`: the next frame of the device overwrites the
caller's buffer. -/
def capRead (dev : Device) (cap : VideoCapture) (w : World) :
    VideoCapture × Mat × World :=
  let got := dev.frames w.reads
  (cap, got, ⟨w.opens, w.reads + 1, w.polls, w.trace ++ [Event.capRead got]⟩)

/-- Model of `cap.release()`. -/
def capRelease (_cap : VideoCapture) (w : World) : VideoCapture × World :=
  (⟨false⟩, ⟨w.opens, w.reads, w.polls, w.trace ++ [Event.capRelease]⟩)

/-- Model of `cv::imshow(winname, mat)`. -/
def imshow (winname : String) (mat : Mat) (w : World) : World :=
  ⟨w.opens, w.reads, w.polls, w.trace ++ [Event.imshow winname mat]⟩

/-- Model of `cv::waitKey(delay)`. -/
def waitKey (dev : Device) (delay : Int) (w : World) : Int × World :=
  let key := dev.keys w.polls
  (key, ⟨w.opens, w.reads, w.polls + 1, w.trace ++ [Event.waitKey delay key]⟩)

/-- Model of `std::cerr << line << std::endl`. -/
def cerr (line : String) (w : World) : World :=
  ⟨w.opens, w.reads, w.polls, w.trace ++ [Event.cerr line]⟩

/-! ## `Camera` (src/vision/Camera.h, src/vision/Camera.cpp) -/

/-- The two data members of `class Camera`. -/
structure Camera where
  cameraID : Int
  cap : VideoCapture
  deriving DecidableEq, Repr

/-- `Camera::Camera(int cameraID)`: stores the index; `cap` is
default-constructed, hence not opened. -/
def Camera.construct (cameraID : Int) : Camera := ⟨cameraID, ⟨false⟩⟩

/-- `Camera::openCamera()`. -/
def Camera.openCamera (dev : Device) (c : Camera) (w : World) : Bool × Camera × World :=
  let r := capOpen dev c.cap c.cameraID w
  let c1 : Camera := ⟨c.cameraID, r.1⟩
  if !capIsOpened c1.cap then
    (false, c1, cerr "Error: Couldn't open the camera." r.2)
  else
    (true, c1, r.2)

/-- `Camera::captureFrame(cv::Mat& frame)`; the second component of the result
is the caller's `frame` after the call. -/
def Camera.captureFrame (dev : Device) (c : Camera) (frame : Mat) (w : World) :
    Bool × Mat × Camera × World :=
  if !capIsOpened c.cap then (false, frame, c, w)
  else
    let r := capRead dev c.cap w
    let c1 : Camera := ⟨c.cameraID, r.1⟩
    (!r.2.1.empty, r.2.1, c1, r.2.2)

/-- `Camera::displayFrame(const cv::Mat& frame)`. -/
def Camera.displayFrame (c : Camera) (frame : Mat) (w : World) : Camera × World :=
  if !frame.empty then (c, imshow "Camera Feed" frame w)
  else (c, w)

/-- `Camera::closeCamera()`. -/
def Camera.closeCamera (c : Camera) (w : World) : Camera × World :=
  if capIsOpened c.cap then
    let r := capRelease c.cap w
    (⟨c.cameraID, r.1⟩, r.2)
  else (c, w)

/-- `Camera::~Camera()`. -/
def Camera.destruct (c : Camera) (w : World) : Camera × World :=
  c.closeCamera w

/-! ## Entry point (src/main.cpp) -/

/-- The `while (true)` loop of `main`, bounded by `fuel` iterations; `none`
means the fuel ran out before a `break`. -/
def mainLoop (dev : Device) : Nat → Camera → Mat → World → Option (Camera × World)
  | 0, _, _, _ => none
  | fuel + 1, cam, frame, w =>
    let r := cam.captureFrame dev frame w
    if !r.1 then
      some (r.2.2.1, cerr "Error: Blank frame grabbed." r.2.2.2)
    else
      let d := r.2.2.1.displayFrame r.2.1 r.2.2.2
      let k := waitKey dev 30 d.2
      if k.1 ≥ 0 then some (d.1, k.2)
      else mainLoop dev fuel d.1 r.2.1 k.2

/-- What is left when `main` returns: its return value, the `Camera` object
after its destructor ran, and the world. -/
structure Exit where
  status : Int
  cam : Camera
  world : World
  deriving DecidableEq, Repr

/-- `main()`, with the destructor of `cam` run on both `return` paths. -/
def main (dev : Device) (fuel : Nat) : Option Exit :=
  let cam := Camera.construct 0
  let o := cam.openCamera dev World.init
  if !o.1 then
    let d := o.2.1.destruct o.2.2
    some ⟨-1, d.1, d.2⟩
  else
    let frame : Mat := ⟨[]⟩
    match mainLoop dev fuel o.2.1 frame o.2.2 with
    | none => none
    | some l =>
      let c := l.1.closeCamera l.2
      let d := c.1.destruct c.2
      some ⟨0, d.1, d.2⟩

/-! ## Vocabulary for statements about traces -/

/-- The event is an underlying frame read. -/
def Event.isRead : Event → Bool
  | Event.capRead _ => true
  | _ => false

/-- The event is a window display. -/
def Event.isShow : Event → Bool
  | Event.imshow _ _ => true
  | _ => false

/-- The event is a key poll. -/
def Event.isPoll : Event → Bool
  | Event.waitKey _ _ => true
  | _ => false

/-- The event is a release of the capture handle. -/
def Event.isRelease : Event → Bool
  | Event.capRelease => true
  | _ => false

/-- Whether the handle is open once the calls of a trace have happened, given
whether it was open before them. -/
def handleAfter : Bool → List Event → Bool
  | h, [] => h
  | _, Event.capOpen _ ok :: t => handleAfter ok t
  | _, Event.capRelease :: t => handleAfter false t
  | h, _ :: t => handleAfter h t

/-- Every read of the trace happens at a moment when the handle is open, given
whether the handle was open before the trace. -/
def readsWhileOpen : Bool → List Event → Bool
  | _, [] => true
  | _, Event.capOpen _ ok :: t => readsWhileOpen ok t
  | _, Event.capRelease :: t => readsWhileOpen false t
  | h, Event.capRead _ :: t => h && readsWhileOpen h t
  | h, _ :: t => readsWhileOpen h t

/-- The external calls of `n` complete loop iterations that start with the
`s`-th frame and the `s`-th key poll: read a frame, show that same frame in
the window "Camera Feed", poll the keyboard for 30 ms. -/
def rounds (dev : Device) : Nat → Nat → List Event
  | _, 0 => []
  | s, n + 1 =>
    [Event.capRead (dev.frames s), Event.imshow "Camera Feed" (dev.frames s),
      Event.waitKey 30 (dev.keys s)] ++ rounds dev (s + 1) n

/-- A client call on a `Camera` object. -/
inductive Op where
  | openCamera
  | captureFrame (frame : Mat)
  | displayFrame (frame : Mat)
  | closeCamera
  deriving DecidableEq, Repr

/-- Effect of one client call on the object and the world. -/
def Op.run (dev : Device) : Op → Camera × World → Camera × World
  | Op.openCamera, s => (s.1.openCamera dev s.2).2
  | Op.captureFrame frame, s => (s.1.captureFrame dev frame s.2).2.2
  | Op.displayFrame frame, s => s.1.displayFrame frame s.2
  | Op.closeCamera, s => s.1.closeCamera s.2

/-- Effect of a finite sequence of client calls, first call first. -/
def runOps (dev : Device) : List Op → Camera × World → Camera × World
  | [], s => s
  | op :: ops, s => runOps dev ops (op.run dev s)

/-- State invariant of a `Camera` driven by client calls: every read so far
happened while the handle was open, and the handle state stored in the object
is the one the trace accounts for. -/
def TraceInv (s : Camera × World) : Prop :=
  readsWhileOpen false s.2.trace = true ∧ handleAfter false s.2.trace = s.1.cap.opened

/-! ## Auxiliary lemmas -/

theorem mainLoop_frame_irrel (dev : Device) (fuel : Nat) (cam : Camera) (f g : Mat)
    (w : World) : mainLoop dev fuel cam f w = mainLoop dev fuel cam g w := by
  cases fuel with
  | zero => rfl
  | succ n =>
    cases h : cam.cap.opened <;>
      simp [mainLoop, Camera.captureFrame, capIsOpened, h]

theorem mainLoop_round (dev : Device) (fuel : Nat) (cam : Camera) (f : Mat) (w : World)
    (hopen : cam.cap.opened = true) (hframe : (dev.frames w.reads).empty = false)
    (hkey : dev.keys w.polls < 0) :
    mainLoop dev (fuel + 1) cam f w =
      mainLoop dev fuel cam f
        ⟨w.opens, w.reads + 1, w.polls + 1, w.trace ++
          [Event.capRead (dev.frames w.reads),
            Event.imshow "Camera Feed" (dev.frames w.reads),
            Event.waitKey 30 (dev.keys w.polls)]⟩ := by
  rw [mainLoop_frame_irrel dev fuel cam f (dev.frames w.reads)]
  simp [mainLoop, Camera.captureFrame, Camera.displayFrame, capIsOpened, capRead, imshow,
    waitKey, hopen, hframe, hkey, rounds]

theorem mainLoop_rounds (dev : Device) (n : Nat) :
    ∀ (fuel s : Nat) (cam : Camera) (f : Mat) (w : World),
      cam.cap.opened = true → w.reads = s → w.polls = s →
      (∀ i, i < n → (dev.frames (s + i)).empty = false ∧ dev.keys (s + i) < 0) →
      mainLoop dev (n + fuel) cam f w =
        mainLoop dev fuel cam f ⟨w.opens, s + n, s + n, w.trace ++ rounds dev s n⟩ := by
  induction n with
  | zero =>
    intro fuel s cam f w _ hr hp _
    cases w
    simp only [rounds, List.append_nil, Nat.zero_add, Nat.add_zero]
    simp at hr hp
    rw [hr, hp]
  | succ n ih =>
    intro fuel s cam f w hopen hr hp hgood
    have h0 := hgood 0 (Nat.succ_pos n)
    have hstep : n + 1 + fuel = (n + fuel) + 1 := by omega
    rw [hstep, mainLoop_round dev (n + fuel) cam f w hopen (by rw [hr]; exact h0.1)
      (by rw [hp]; exact h0.2)]
    rw [ih fuel (s + 1) cam f _ hopen (by simp [hr]) (by simp [hp])
      (fun i hi => by
        have := hgood (i + 1) (by omega)
        rw [show s + 1 + i = s + (i + 1) by omega]
        exact this)]
    simp [rounds, hr, hp, Nat.add_assoc, Nat.add_comm 1 n]

theorem mainLoop_blank (dev : Device) (fuel : Nat) (cam : Camera) (f : Mat) (w : World)
    (hopen : cam.cap.opened = true) (hframe : (dev.frames w.reads).empty = true) :
    mainLoop dev (fuel + 1) cam f w =
      some (cam, ⟨w.opens, w.reads + 1, w.polls, w.trace ++
        [Event.capRead (dev.frames w.reads), Event.cerr "Error: Blank frame grabbed."]⟩) := by
  simp [mainLoop, Camera.captureFrame, capIsOpened, capRead, cerr, hopen, hframe]

theorem mainLoop_key (dev : Device) (fuel : Nat) (cam : Camera) (f : Mat) (w : World)
    (hopen : cam.cap.opened = true) (hframe : (dev.frames w.reads).empty = false)
    (hkey : 0 ≤ dev.keys w.polls) :
    mainLoop dev (fuel + 1) cam f w =
      some (cam, ⟨w.opens, w.reads + 1, w.polls + 1, w.trace ++
        [Event.capRead (dev.frames w.reads),
          Event.imshow "Camera Feed" (dev.frames w.reads),
          Event.waitKey 30 (dev.keys w.polls)]⟩) := by
  simp [mainLoop, Camera.captureFrame, Camera.displayFrame, capIsOpened, capRead, imshow,
    waitKey, hopen, hframe, hkey]

theorem countP_isRead_rounds (dev : Device) (n : Nat) :
    ∀ s, (rounds dev s n).countP Event.isRead = n := by
  induction n with
  | zero => intro s; rfl
  | succ n ih => intro s; simp [rounds, Event.isRead, ih, List.countP_cons]

theorem countP_isShow_rounds (dev : Device) (n : Nat) :
    ∀ s, (rounds dev s n).countP Event.isShow = n := by
  induction n with
  | zero => intro s; rfl
  | succ n ih => intro s; simp [rounds, Event.isShow, ih, List.countP_cons]

theorem countP_isPoll_rounds (dev : Device) (n : Nat) :
    ∀ s, (rounds dev s n).countP Event.isPoll = n := by
  induction n with
  | zero => intro s; rfl
  | succ n ih => intro s; simp [rounds, Event.isPoll, ih, List.countP_cons]

theorem countP_isRelease_rounds (dev : Device) (n : Nat) :
    ∀ s, (rounds dev s n).countP Event.isRelease = 0 := by
  induction n with
  | zero => intro s; rfl
  | succ n ih => intro s; simp [rounds, Event.isRelease, ih, List.countP_cons]

theorem rounds_succ_end (dev : Device) (n : Nat) :
    ∀ s, rounds dev s (n + 1) = rounds dev s n ++
      [Event.capRead (dev.frames (s + n)), Event.imshow "Camera Feed" (dev.frames (s + n)),
        Event.waitKey 30 (dev.keys (s + n))] := by
  induction n with
  | zero => intro s; simp [rounds]
  | succ n ih =>
    intro s
    have h := ih (s + 1)
    rw [show s + 1 + n = s + (n + 1) by omega] at h
    rw [rounds, h]
    simp [rounds]

theorem handleAfter_append (t u : List Event) :
    ∀ h, handleAfter h (t ++ u) = handleAfter (handleAfter h t) u := by
  induction t with
  | nil => intro h; rfl
  | cons e t ih => intro h; cases e <;> simp [handleAfter, ih]

theorem readsWhileOpen_append (t u : List Event) :
    ∀ h, readsWhileOpen h (t ++ u) =
      (readsWhileOpen h t && readsWhileOpen (handleAfter h t) u) := by
  induction t with
  | nil => intro h; simp [readsWhileOpen, handleAfter]
  | cons e t ih => intro h; cases e <;> simp [readsWhileOpen, handleAfter, ih, Bool.and_assoc]

theorem mainLoop_keeps_handle (dev : Device) :
    ∀ (fuel : Nat) (cam : Camera) (f : Mat) (w : World) (r : Camera × World),
      cam.cap.opened = true → mainLoop dev fuel cam f w = some r →
      r.1 = cam ∧ r.2.trace.countP Event.isRelease = w.trace.countP Event.isRelease ∧
        handleAfter false r.2.trace = handleAfter false w.trace := by
  intro fuel
  induction fuel with
  | zero => intro cam f w r _ h; simp [mainLoop] at h
  | succ n ih =>
    intro cam f w r hopen h
    cases hframe : (dev.frames w.reads).empty with
    | true =>
      rw [mainLoop_blank dev n cam f w hopen hframe] at h
      cases h
      simp [List.countP_append, List.countP_cons, Event.isRelease, handleAfter_append,
        handleAfter]
    | false =>
      by_cases hkey : 0 ≤ dev.keys w.polls
      · rw [mainLoop_key dev n cam f w hopen hframe hkey] at h
        cases h
        simp [List.countP_append, List.countP_cons, Event.isRelease, handleAfter_append,
          handleAfter]
      · rw [mainLoop_round dev n cam f w hopen hframe (by omega)] at h
        have hi := ih cam f _ r hopen h
        refine ⟨hi.1, ?_, ?_⟩
        · rw [hi.2.1]
          simp [List.countP_append, List.countP_cons, Event.isRelease]
        · rw [hi.2.2]
          simp [handleAfter_append, handleAfter]

theorem Op.run_preserves (dev : Device) (op : Op) (s : Camera × World) (h : TraceInv s) :
    TraceInv (op.run dev s) := by
  obtain ⟨c, w⟩ := s
  obtain ⟨h1, h2⟩ := h
  simp only at h1 h2
  cases op with
  | openCamera =>
    cases ho : dev.openOk w.opens c.cameraID <;>
      simp [TraceInv, Op.run, Camera.openCamera, capIsOpened, capOpen, cerr, ho,
        readsWhileOpen_append, handleAfter_append, readsWhileOpen, handleAfter, h1]
  | captureFrame frame =>
    cases hc : c.cap.opened <;>
      simp [TraceInv, Op.run, Camera.captureFrame, capIsOpened, capRead, hc,
        readsWhileOpen_append, handleAfter_append, readsWhileOpen, handleAfter, h1, h2]
  | displayFrame frame =>
    cases hf : frame.empty <;>
      simp [TraceInv, Op.run, Camera.displayFrame, imshow, hf,
        readsWhileOpen_append, handleAfter_append, readsWhileOpen, handleAfter, h1, h2]
  | closeCamera =>
    cases hc : c.cap.opened <;>
      simp [TraceInv, Op.run, Camera.closeCamera, capIsOpened, capRelease, hc,
        readsWhileOpen_append, handleAfter_append, readsWhileOpen, handleAfter, h1, h2]

theorem runOps_preserves (dev : Device) (ops : List Op) :
    ∀ s, TraceInv s → TraceInv (runOps dev ops s) := by
  induction ops with
  | nil => intro s h; exact h
  | cons op ops ih => intro s h; exact ih _ (Op.run_preserves dev op s h)

theorem main_eq_of_open_failure (dev : Device) (fuel : Nat)
    (hfail : dev.openOk 0 0 = false) :
    main dev fuel = some ⟨-1, ⟨0, ⟨false⟩⟩, ⟨1, 0, 0,
      [Event.capOpen 0 false, Event.cerr "Error: Couldn't open the camera."]⟩⟩ := by
  simp [main, Camera.construct, Camera.openCamera, Camera.destruct, Camera.closeCamera,
    capIsOpened, capOpen, cerr, World.init, hfail]

/-! ## `Camera` contracts -/

/-- C1: captureFrame returns true exactly when the handle is open at the time
of the call and the frame produced by the underlying read is non-empty; it
returns false when the handle is not open, and false when the handle is open
but the read produced an empty frame. -/
theorem captureFrame_true_iff (dev : Device) (c : Camera) (frame : Mat) (w : World) :
    ((c.captureFrame dev frame w).1 = true ↔
      (c.cap.opened = true ∧ (dev.frames w.reads).empty = false)) ∧
    (c.cap.opened = false → (c.captureFrame dev frame w).1 = false) ∧
    (c.cap.opened = true → (dev.frames w.reads).empty = true →
      (c.captureFrame dev frame w).1 = false) ∧
    (c.cap.opened = true → (c.captureFrame dev frame w).2.1 = dev.frames w.reads) := by
  cases h : c.cap.opened <;> simp [Camera.captureFrame, capIsOpened, capRead, h]

/-- C2: a Camera that has just been constructed is closed, and captureFrame on
it returns false, performs no external call (the world is unchanged) and
leaves the frame of the caller and the Camera unchanged. -/
theorem captureFrame_before_open (dev : Device) (cameraID : Int) (frame : Mat) (w : World) :
    (Camera.construct cameraID).cap.opened = false ∧
    (Camera.construct cameraID).captureFrame dev frame w =
      (false, frame, Camera.construct cameraID, w) := by
  simp [Camera.construct, Camera.captureFrame, capIsOpened]

/-- C3: closeCamera leaves the handle closed from every state; a second
closeCamera returns exactly the state reached by the first one, so it adds no
release to the trace; and after an openCamera that returned true, two
successive closeCamera calls add exactly one release. -/
theorem closeCamera_idempotent (c : Camera) (w : World) :
    (c.closeCamera w).1.cap.opened = false ∧
    (c.closeCamera w).1.closeCamera (c.closeCamera w).2 = c.closeCamera w ∧
    (c.closeCamera w).2.trace =
      w.trace ++ (if c.cap.opened then [Event.capRelease] else []) ∧
    (∀ dev : Device, (c.openCamera dev w).1 = true →
      ((c.openCamera dev w).2.1.closeCamera (c.openCamera dev w).2.2).1.closeCamera
          ((c.openCamera dev w).2.1.closeCamera (c.openCamera dev w).2.2).2 =
        (⟨c.cameraID, ⟨false⟩⟩,
          ⟨w.opens + 1, w.reads, w.polls,
            w.trace ++ [Event.capOpen c.cameraID true, Event.capRelease]⟩)) := by
  refine ⟨?_, ?_, ?_, ?_⟩
  · cases h : c.cap.opened <;> simp [Camera.closeCamera, capIsOpened, capRelease, h]
  · cases h : c.cap.opened <;> simp [Camera.closeCamera, capIsOpened, capRelease, h]
  · cases h : c.cap.opened <;> simp [Camera.closeCamera, capIsOpened, capRelease, h]
  · intro dev
    cases h : dev.openOk w.opens c.cameraID <;>
      simp [Camera.openCamera, Camera.closeCamera, capIsOpened, capRelease, capOpen, cerr, h]

/-- C7: openCamera returns true exactly when the handle is open after the
call, and false when the device refused the attempt; a handle that was closed
before and is open after was opened by a call that returned true; the index
passed to the device is the cameraID stored at construction, which the call
does not change. -/
theorem openCamera_spec (dev : Device) (c : Camera) (w : World) :
    ((c.openCamera dev w).1 = true ↔ (c.openCamera dev w).2.1.cap.opened = true) ∧
    (c.openCamera dev w).1 = dev.openOk w.opens c.cameraID ∧
    (c.cap.opened = false → (c.openCamera dev w).2.1.cap.opened = true →
      (c.openCamera dev w).1 = true) ∧
    (c.openCamera dev w).2.1.cameraID = c.cameraID ∧
    (c.openCamera dev w).2.2.trace =
      w.trace ++ (if (c.openCamera dev w).1 then [Event.capOpen c.cameraID true]
        else [Event.capOpen c.cameraID false, Event.cerr "Error: Couldn't open the camera."]) ∧
    (∀ cameraID : Int, (Camera.construct cameraID).cameraID = cameraID) := by
  cases h : dev.openOk w.opens c.cameraID <;>
    simp [Camera.openCamera, Camera.construct, capIsOpened, capOpen, cerr, h]

/-- C8: displayFrame never changes the Camera; with an empty frame it leaves
the world unchanged (no window call); with a non-empty frame it adds exactly
one show of that frame in the window "Camera Feed" and nothing else. -/
theorem displayFrame_spec (c : Camera) (frame : Mat) (w : World) :
    (c.displayFrame frame w).1 = c ∧
    (frame.empty = true → (c.displayFrame frame w).2 = w) ∧
    (frame.empty = false → (c.displayFrame frame w).2 =
      ⟨w.opens, w.reads, w.polls, w.trace ++ [Event.imshow "Camera Feed" frame]⟩) := by
  cases h : frame.empty <;> simp [Camera.displayFrame, imshow, h]

/-! ## Client call sequences -/

/-- C9: after any finite sequence of openCamera, captureFrame, displayFrame
and closeCamera calls on a freshly constructed Camera, against any device,
every read of the trace happened while the handle was open, the handle state
held by the Camera is the one the trace accounts for, and a captureFrame
issued in a reached state whose handle is closed returns false and leaves the
world unchanged (no read). -/
theorem reads_only_while_open (dev : Device) (cameraID : Int) (ops : List Op) :
    readsWhileOpen false
      (runOps dev ops (Camera.construct cameraID, World.init)).2.trace = true ∧
    handleAfter false (runOps dev ops (Camera.construct cameraID, World.init)).2.trace =
      (runOps dev ops (Camera.construct cameraID, World.init)).1.cap.opened ∧
    (∀ frame : Mat,
      (runOps dev ops (Camera.construct cameraID, World.init)).1.cap.opened = false →
      ((runOps dev ops (Camera.construct cameraID, World.init)).1.captureFrame dev frame
          (runOps dev ops (Camera.construct cameraID, World.init)).2).1 = false ∧
      ((runOps dev ops (Camera.construct cameraID, World.init)).1.captureFrame dev frame
          (runOps dev ops (Camera.construct cameraID, World.init)).2).2.2.2 =
        (runOps dev ops (Camera.construct cameraID, World.init)).2) := by
  have hinv : TraceInv (runOps dev ops (Camera.construct cameraID, World.init)) :=
    runOps_preserves dev ops _ (by simp [TraceInv, World.init, Camera.construct,
      readsWhileOpen, handleAfter])
  refine ⟨hinv.1, hinv.2, ?_⟩
  intro frame hclosed
  simp [Camera.captureFrame, capIsOpened, hclosed]

/-! ## Runs of `main` -/

/-- C4: when opening device 0 fails, main returns -1 (a nonzero status) for
every fuel, and its trace, which consists of the failed open and the error
line, contains no frame read, no window display and no key poll. -/
theorem main_open_failure (dev : Device) (fuel : Nat) (hfail : dev.openOk 0 0 = false) :
    main dev fuel = some ⟨-1, ⟨0, ⟨false⟩⟩, ⟨1, 0, 0,
      [Event.capOpen 0 false, Event.cerr "Error: Couldn't open the camera."]⟩⟩ ∧
    (∀ e : Exit, main dev fuel = some e → e.status = -1 ∧ e.status ≠ 0 ∧
      ∀ ev ∈ e.world.trace, ev.isRead = false ∧ ev.isShow = false ∧ ev.isPoll = false) := by
  have hmain := main_eq_of_open_failure dev fuel hfail
  refine ⟨hmain, ?_⟩
  intro e he
  rw [hmain] at he
  cases he
  simp [Event.isRead, Event.isShow, Event.isPoll]

/-- Witness of C4 on a device on which every open attempt fails. -/
theorem main_open_failure_witness :
    main ⟨fun _ _ => false, fun _ => ⟨[]⟩, fun _ => -1⟩ 3 = some ⟨-1, ⟨0, ⟨false⟩⟩, ⟨1, 0, 0,
      [Event.capOpen 0 false, Event.cerr "Error: Couldn't open the camera."]⟩⟩ :=
  (main_open_failure ⟨fun _ _ => false, fun _ => ⟨[]⟩, fun _ => -1⟩ 3 rfl).1

/-- C5: if device 0 opens, the frames 0 .. k-1 are non-empty with no key
reported at the polls 0 .. k-1, and frame k is empty, then with any fuel
above k main returns 0 and its trace is exactly: the open, k complete
iterations, the read of the empty frame, the error line, and one release.
So nothing is read, shown or polled after the empty frame, and the empty
frame is not shown. -/
theorem main_blank_frame (dev : Device) (k fuel : Nat) (hopen : dev.openOk 0 0 = true)
    (hgood : ∀ i, i < k → (dev.frames i).empty = false ∧ dev.keys i < 0)
    (hblank : (dev.frames k).empty = true) (hfuel : k < fuel) :
    main dev fuel = some ⟨0, ⟨0, ⟨false⟩⟩, ⟨1, k + 1, k,
      [Event.capOpen 0 true] ++ rounds dev 0 k ++
        [Event.capRead (dev.frames k), Event.cerr "Error: Blank frame grabbed.",
          Event.capRelease]⟩⟩ ∧
    (∀ e : Exit, main dev fuel = some e →
      e.world.trace.countP Event.isRead = k + 1 ∧
      e.world.trace.countP Event.isShow = k ∧
      e.world.trace.countP Event.isPoll = k ∧
      e.world.trace.countP Event.isRelease = 1) := by
  obtain ⟨m, rfl⟩ : ∃ m, fuel = k + (m + 1) := ⟨fuel - k - 1, by omega⟩
  have hloop := mainLoop_rounds dev k (m + 1) 0 ⟨0, ⟨true⟩⟩ ⟨[]⟩
    ⟨1, 0, 0, [Event.capOpen 0 true]⟩ rfl rfl rfl (by simpa using hgood)
  rw [mainLoop_blank dev m _ _ _ rfl (by simpa using hblank)] at hloop
  have hmain : main dev (k + (m + 1)) = some ⟨0, ⟨0, ⟨false⟩⟩, ⟨1, k + 1, k,
      [Event.capOpen 0 true] ++ rounds dev 0 k ++
        [Event.capRead (dev.frames k), Event.cerr "Error: Blank frame grabbed.",
          Event.capRelease]⟩⟩ := by
    simp [main, Camera.construct, Camera.openCamera, capIsOpened, capOpen, World.init, hopen]
    rw [hloop]
    simp [Camera.destruct, Camera.closeCamera, capIsOpened, capRelease]
  refine ⟨hmain, ?_⟩
  intro e he
  rw [hmain] at he
  cases he
  simp [List.countP_append, List.countP_cons, Event.isRead, Event.isShow, Event.isPoll,
    Event.isRelease, countP_isRead_rounds, countP_isShow_rounds, countP_isPoll_rounds,
    countP_isRelease_rounds]

/-- Witness of C5: two good frames, then an empty one, no key ever pressed. -/
theorem main_blank_frame_witness :
    main ⟨fun _ _ => true, fun i => if i < 2 then ⟨[7]⟩ else ⟨[]⟩, fun _ => -1⟩ 3 =
      some ⟨0, ⟨0, ⟨false⟩⟩, ⟨1, 3, 2,
        [Event.capOpen 0 true,
          Event.capRead ⟨[7]⟩, Event.imshow "Camera Feed" ⟨[7]⟩, Event.waitKey 30 (-1),
          Event.capRead ⟨[7]⟩, Event.imshow "Camera Feed" ⟨[7]⟩, Event.waitKey 30 (-1),
          Event.capRead ⟨[]⟩, Event.cerr "Error: Blank frame grabbed.",
          Event.capRelease]⟩⟩ :=
  (main_blank_frame ⟨fun _ _ => true, fun i => if i < 2 then ⟨[7]⟩ else ⟨[]⟩, fun _ => -1⟩
    2 3 rfl (by decide) rfl (by decide)).1

/-- C6: for N ≥ 1, if device 0 opens, the frames 0 .. N-1 are non-empty, the
polls 0 .. N-2 report no key (negative) and poll N-1 reports a key (≥ 0), then
with any fuel of at least N main returns 0 and its trace is exactly: the
open, N iterations each made of a read, a show of the frame just read and a
poll, and one release; it holds exactly N reads and N displays, and the handle
is closed at the end. -/
theorem main_key_press (dev : Device) (N fuel : Nat) (hN : 1 ≤ N)
    (hopen : dev.openOk 0 0 = true)
    (hframes : ∀ i, i < N → (dev.frames i).empty = false)
    (hnokey : ∀ i, i + 1 < N → dev.keys i < 0)
    (hkey : 0 ≤ dev.keys (N - 1)) (hfuel : N ≤ fuel) :
    main dev fuel = some ⟨0, ⟨0, ⟨false⟩⟩, ⟨1, N, N,
      [Event.capOpen 0 true] ++ rounds dev 0 N ++ [Event.capRelease]⟩⟩ ∧
    (∀ e : Exit, main dev fuel = some e →
      e.world.trace.countP Event.isRead = N ∧
      e.world.trace.countP Event.isShow = N ∧
      e.world.trace.countP Event.isRelease = 1 ∧
      e.cam.cap.opened = false) := by
  obtain ⟨n, rfl⟩ : ∃ n, N = n + 1 := ⟨N - 1, by omega⟩
  obtain ⟨m, rfl⟩ : ∃ m, fuel = n + (m + 1) := ⟨fuel - n - 1, by omega⟩
  have hloop := mainLoop_rounds dev n (m + 1) 0 ⟨0, ⟨true⟩⟩ ⟨[]⟩
    ⟨1, 0, 0, [Event.capOpen 0 true]⟩ rfl rfl rfl
    (fun i hi => by
      rw [Nat.zero_add]
      exact ⟨hframes i (by omega), hnokey i (by omega)⟩)
  rw [mainLoop_key dev m _ _ _ rfl (by simpa using hframes n (by omega))
    (by simpa using hkey)] at hloop
  have hmain : main dev (n + (m + 1)) = some ⟨0, ⟨0, ⟨false⟩⟩, ⟨1, n + 1, n + 1,
      [Event.capOpen 0 true] ++ rounds dev 0 (n + 1) ++ [Event.capRelease]⟩⟩ := by
    simp [main, Camera.construct, Camera.openCamera, capIsOpened, capOpen, World.init, hopen]
    rw [hloop, rounds_succ_end]
    simp [Camera.destruct, Camera.closeCamera, capIsOpened, capRelease]
  refine ⟨hmain, ?_⟩
  intro e he
  rw [hmain] at he
  cases he
  simp [List.countP_append, List.countP_cons, Event.isRead, Event.isShow,
    Event.isRelease, countP_isRead_rounds, countP_isShow_rounds, countP_isRelease_rounds]

/-- Witness of C6 with N = 2: the key is pressed during the second poll. -/
theorem main_key_press_witness :
    main ⟨fun _ _ => true, fun i => ⟨[i + 1]⟩, fun i => if i < 1 then -1 else 113⟩ 2 =
      some ⟨0, ⟨0, ⟨false⟩⟩, ⟨1, 2, 2,
        [Event.capOpen 0 true,
          Event.capRead ⟨[1]⟩, Event.imshow "Camera Feed" ⟨[1]⟩, Event.waitKey 30 (-1),
          Event.capRead ⟨[2]⟩, Event.imshow "Camera Feed" ⟨[2]⟩, Event.waitKey 30 113,
          Event.capRelease]⟩⟩ :=
  (main_key_press ⟨fun _ _ => true, fun i => ⟨[i + 1]⟩, fun i => if i < 1 then -1 else 113⟩
    2 2 (by decide) rfl (by decide)
    (by intro i hi; have h0 : i = 0 := by omega
        subst h0; decide)
    (by decide) (by decide)).1

/-- C10: on every run of main that terminates, the handle held by the Camera
is closed at the end and the trace leaves the handle closed; a run that
returns -1 is one where the open failed and it holds no release; a run that
returns 0 is one where the open succeeded and it holds exactly one release,
as its last external call, so the close of the destructor after the explicit
closeCamera releases nothing; closing once more would change nothing. -/
theorem main_handle_closed (dev : Device) (fuel : Nat) (e : Exit)
    (hrun : main dev fuel = some e) :
    e.cam.cap.opened = false ∧
    handleAfter false e.world.trace = false ∧
    e.cam.closeCamera e.world = (e.cam, e.world) ∧
    ((e.status = -1 ∧ dev.openOk 0 0 = false ∧
        e.world.trace.countP Event.isRelease = 0) ∨
      (e.status = 0 ∧ dev.openOk 0 0 = true ∧
        e.world.trace.countP Event.isRelease = 1 ∧
        e.world.trace.getLast? = some Event.capRelease)) := by
  cases hopen : dev.openOk 0 0 with
  | false =>
    rw [main_eq_of_open_failure dev fuel hopen] at hrun
    cases hrun
    simp [handleAfter, Camera.closeCamera, capIsOpened, Event.isRelease]
  | true =>
    simp only [main, Camera.construct, Camera.openCamera, capIsOpened, capOpen, World.init,
      hopen] at hrun
    simp only [Bool.not_true, Bool.false_eq_true, if_false] at hrun
    cases hloop : mainLoop dev fuel ⟨0, ⟨true⟩⟩ ⟨[]⟩ ⟨0 + 1, 0, 0, [] ++ [Event.capOpen 0 true]⟩ with
    | none => rw [hloop] at hrun; simp at hrun
    | some r =>
      rw [hloop] at hrun
      obtain ⟨h1, h2, h3⟩ := mainLoop_keeps_handle dev fuel _ _ _ r rfl hloop
      obtain ⟨rc, rw⟩ := r
      simp only at h1 h2 h3
      subst h1
      simp [Camera.destruct, Camera.closeCamera, capIsOpened, capRelease] at hrun
      subst hrun
      simp [handleAfter_append, handleAfter, Camera.closeCamera, capIsOpened,
        List.countP_append, List.countP_cons, Event.isRelease, h2]

/-- Witness of C10 on a run that ends by a key press at the first poll. -/
theorem main_handle_closed_witness :
    main ⟨fun _ _ => true, fun _ => ⟨[5]⟩, fun _ => 27⟩ 1 =
      some ⟨0, ⟨0, ⟨false⟩⟩, ⟨1, 1, 1,
        [Event.capOpen 0 true, Event.capRead ⟨[5]⟩, Event.imshow "Camera Feed" ⟨[5]⟩,
          Event.waitKey 30 27, Event.capRelease]⟩⟩ ∧
    (⟨0, ⟨0, ⟨false⟩⟩, ⟨1, 1, 1,
      [Event.capOpen 0 true, Event.capRead ⟨[5]⟩, Event.imshow "Camera Feed" ⟨[5]⟩,
        Event.waitKey 30 27, Event.capRelease]⟩⟩ : Exit).cam.cap.opened = false :=
  ⟨rfl, (main_handle_closed ⟨fun _ _ => true, fun _ => ⟨[5]⟩, fun _ => 27⟩ 1 _ rfl).1⟩

end Invernadero
